import Mathlib

/-!
Verification of the glaze-interop runtime type-description and
dynamic-invocation bridge, against its test and example sources
(src/test, src/examples).

Conventions of the embedding:
* C++ `double` / `float` values are modelled as rationals (the concrete
  values appearing in the claims — 0.0, 3.0, 5.0, 8.0 — are exactly
  representable in IEEE binary floating point, so rational arithmetic
  agrees with the source on every computation the claims mention).
* Raw object addresses are modelled as natural numbers; type hashes are
  abstract distinct natural-number tokens standing for the C++ type hash.
* The core bridge library (type registry, instance registry, invocation
  engine, descriptor builder) is not part of the visible sources — only
  its tests, examples and declared metadata are.  Those core operations
  are therefore modelled from the specification, and each such
  definition carries a doc comment starting with `Modelled from the
  spec:`.  Structs, member lists and member-function bodies are
  translated from the sources directly.
-/

set_option autoImplicit false

namespace GlazeInterop

/-! ## Type descriptor model (spec section 3, src/examples/type_system_example.cpp) -/

/-- Outer shape tag of a TypeDescriptor: one of Bool, I8..I64, U8..U64,
F32, F64, String, Complex, Vector, UnorderedMap, Struct, Optional,
Variant, SharedFuture, Function (spec section 3). -/
inductive OuterType where
  | Bool | I8 | I16 | I32 | I64 | U8 | U16 | U32 | U64 | F32 | F64
  | String | Complex | Vector | UnorderedMap | Struct | Optional
  | Variant | SharedFuture | Function
deriving DecidableEq, Repr

/-- Native C++ types that can appear as member/parameter types in the
visible sources (struct fields and member-function signatures in
src/test and src/examples). -/
inductive CppType where
  | boolT | i8 | i16 | i32 | i64 | u8 | u16 | u32 | u64 | f32 | f64
  | stringT
  | complexT (value : CppType)
  | vectorT (value : CppType)
  | mapT (key value : CppType)
  | optionalT (value : CppType)
  | structT (name : String)
  | variantT
  | futureT (value : CppType)
  | pairT (fst snd : CppType)
deriving DecidableEq, Repr

/-- Tree-shaped TypeDescriptor node: the outer tag together with the
optional KeyType and ValueType auxiliary descriptors, and the referenced
struct name for Struct-tagged nodes (the member's TypeDescriptor stores
the nested struct's name, spec section 4.2).  The fully recursive tree
form is the one spec section 9 declares semantically equivalent to the
flattened three-enum scheme of the source. -/
inductive TypeDesc where
  | node (outer : OuterType) (key : Option TypeDesc) (value : Option TypeDesc)
      (struct_name : Option String)

/-- Outer tag of a descriptor node. -/
def TypeDesc.outer : TypeDesc → OuterType
  | .node o _ _ _ => o

/-- Whether the KeyType auxiliary tag is populated. -/
def TypeDesc.hasKey : TypeDesc → Bool
  | .node _ k _ _ => k.isSome

/-- Whether the ValueType auxiliary tag is populated. -/
def TypeDesc.hasValue : TypeDesc → Bool
  | .node _ _ v _ => v.isSome

/-- Modelled from the spec: the fixed type-to-tag table of the missing
descriptor builder (spec section 4.1), with the container decompositions
exactly as documented in src/examples/type_system_example.cpp:
basic types use only OuterType; vector uses OuterType + ValueType;
complex uses OuterType = Complex with a ValueType; unordered_map uses
all three (OuterType, KeyType and ValueType); optional and shared_future
carry their payload in ValueType (spec section 3); a struct member is a
Struct-tagged node recording the nested struct's name; a variant's
alternatives live in the separate variant descriptor (spec section 3),
not in the KeyType/ValueType tags; std::pair returns are treated as an
anonymous two-field Struct node. -/
def descOf : CppType → TypeDesc
  | .boolT => .node .Bool none none none
  | .i8 => .node .I8 none none none
  | .i16 => .node .I16 none none none
  | .i32 => .node .I32 none none none
  | .i64 => .node .I64 none none none
  | .u8 => .node .U8 none none none
  | .u16 => .node .U16 none none none
  | .u32 => .node .U32 none none none
  | .u64 => .node .U64 none none none
  | .f32 => .node .F32 none none none
  | .f64 => .node .F64 none none none
  | .stringT => .node .String none none none
  | .complexT v => .node .Complex none (some (descOf v)) none
  | .vectorT v => .node .Vector none (some (descOf v)) none
  | .mapT k v => .node .UnorderedMap (some (descOf k)) (some (descOf v)) none
  | .optionalT v => .node .Optional none (some (descOf v)) none
  | .structT n => .node .Struct none none (some n)
  | .variantT => .node .Variant none none none
  | .futureT v => .node .SharedFuture none (some (descOf v)) none
  | .pairT _ _ => .node .Struct none none none

/-- Outer tags that the claimed invariant calls one-argument containers
(Vector, Optional, SharedFuture) or Complex. -/
def oneArgOrComplex (o : OuterType) : Bool :=
  match o with
  | .Vector => true
  | .Optional => true
  | .SharedFuture => true
  | .Complex => true
  | _ => false

/-- Tag-set consistency of one node exactly as the spec states it:
KeyType populated iff OuterType = UnorderedMap, ValueType populated iff
the outer type is a one-argument container or Complex. -/
def nodeTagsClaimed (o : OuterType) (hasKey hasValue : Bool) : Bool :=
  (hasKey == decide (o = OuterType.UnorderedMap)) && (hasValue == oneArgOrComplex o)

/-- Tag-set consistency corrected to what the source's decomposition
table actually produces: ValueType is additionally populated for
UnorderedMap nodes ("Map Types (all three used)" in
src/examples/type_system_example.cpp). -/
def nodeTagsActual (o : OuterType) (hasKey hasValue : Bool) : Bool :=
  (hasKey == decide (o = OuterType.UnorderedMap)) &&
    (hasValue == (oneArgOrComplex o || decide (o = OuterType.UnorderedMap)))

/-- Every node of a descriptor tree satisfies the spec's claimed
tag-consistency predicate. -/
def tagsOkClaimed : TypeDesc → Bool
  | .node o none none _ => nodeTagsClaimed o false false
  | .node o none (some v) _ => nodeTagsClaimed o false true && tagsOkClaimed v
  | .node o (some k) none _ => nodeTagsClaimed o true false && tagsOkClaimed k
  | .node o (some k) (some v) _ =>
      nodeTagsClaimed o true true && tagsOkClaimed k && tagsOkClaimed v

/-- Every node of a descriptor tree satisfies the corrected
tag-consistency predicate. -/
def tagsOkActual : TypeDesc → Bool
  | .node o none none _ => nodeTagsActual o false false
  | .node o none (some v) _ => nodeTagsActual o false true && tagsOkActual v
  | .node o (some k) none _ => nodeTagsActual o true false && tagsOkActual k
  | .node o (some k) (some v) _ =>
      nodeTagsActual o true true && tagsOkActual k && tagsOkActual v

/-- C8 (counterexample): the claimed invariant — ValueType populated iff
the outer type is a one-argument container (Vector, Optional,
SharedFuture) or Complex — fails on the descriptor of
`unordered_map<string, int32_t>`, whose node populates ValueType (the
source's decomposition table says map types use all three tags) while
its outer tag UnorderedMap is not in the claimed set. -/
theorem C8_counterexample :
    tagsOkClaimed (descOf (.mapT .stringT .i32)) = false := by decide

/-- C8 (amended): every TypeDescriptor node produced by the type-to-tag
table has an internally consistent tag set: KeyType is populated iff the
OuterType is UnorderedMap, and ValueType is populated iff the outer type
is a one-argument container (Vector, Optional, SharedFuture), Complex,
or UnorderedMap (maps record their mapped type in ValueType as well). -/
theorem C8_tag_consistency_amended : ∀ t : CppType, tagsOkActual (descOf t) = true := by
  intro t
  induction t with
  | complexT v ih => simp [descOf, tagsOkActual, nodeTagsActual, oneArgOrComplex, ih]
  | vectorT v ih => simp [descOf, tagsOkActual, nodeTagsActual, oneArgOrComplex, ih]
  | mapT k v ihk ihv =>
      simp [descOf, tagsOkActual, nodeTagsActual, oneArgOrComplex, ihk, ihv]
  | optionalT v ih => simp [descOf, tagsOkActual, nodeTagsActual, oneArgOrComplex, ih]
  | futureT v ih => simp [descOf, tagsOkActual, nodeTagsActual, oneArgOrComplex, ih]
  | _ => simp [descOf, tagsOkActual, nodeTagsActual, oneArgOrComplex]

/-! ## Struct descriptors built from glz::meta member lists -/

/-- Function descriptor of a member function: ordered parameter count,
whether the return type is void, and the const-ness flag (spec section
3; printed as param_count / is_const in
src/test/test_member_function_template_demo.cpp). -/
structure FuncDesc where
  param_count : Nat
  returns_void : Bool
  is_const : Bool
deriving DecidableEq, Repr

/-- Member record of a StructDescriptor as the examples observe it:
kind 0 for a data member, kind 1 for a member function, the member's
TypeDescriptor, the type-erased invoker pointer (modelled as a non-null
flag) and the function descriptor for function members. -/
structure MemberMeta where
  name : String
  kind : Nat
  tdesc : TypeDesc
  function_ptr : Bool
  fdesc : Option FuncDesc

/-- One entry of a glz::meta member list: either a data member with its
native type, or a member function with its parameter types, a void
return flag and a const flag; both read off the source declarations. -/
inductive MetaEntry where
  | dataEntry (name : String) (ty : CppType)
  | funcEntry (name : String) (params : List CppType) (ret_void : Bool) (is_const : Bool)

/-- Modelled from the spec: how the missing registration code turns one
glz::meta entry into a member record — data members get kind 0; member
functions get kind 1, an auto-generated type-erased invoker stored in
function_ptr (the MemberFunctionAccessor template,
src/test/test_member_function_template_demo.cpp), and a function
descriptor with the declared parameter count and const-ness. -/
def buildMember : MetaEntry → MemberMeta
  | .dataEntry n ty =>
      { name := n, kind := 0, tdesc := descOf ty, function_ptr := false, fdesc := none }
  | .funcEntry n ps rv c =>
      { name := n, kind := 1, tdesc := .node .Function none none none,
        function_ptr := true,
        fdesc := some { param_count := ps.length, returns_void := rv, is_const := c } }

/-- StructDescriptor: type name, type hash, byte size and the ordered
member list (spec section 3).  Hashes are abstract distinct tokens
standing for the C++ type hash; the byte size is abstract (no claim
depends on it) and modelled as 0. -/
structure StructDesc where
  type_name : String
  type_hash : Nat
  size : Nat
  members : List MemberMeta

/-- Modelled from the spec: the StructDescriptor computed by
register_type for a compile-time type from its glz::meta member list,
in declaration order. -/
def buildStructDesc (name : String) (hash : Nat) (size : Nat)
    (meta : List MetaEntry) : StructDesc :=
  { type_name := name, type_hash := hash, size := size,
    members := meta.map buildMember }

/-! ## Process-wide type and instance registries -/

/-- First-match association lookup used by both registries. -/
def lookupName {α : Type} : List (String × α) → String → Option α
  | [], _ => none
  | (k, v) :: rest, n => if k = n then some v else lookupName rest n

/-- Status returned by type registration. -/
inductive RegStatus where
  | success
  | typeConflict
deriving DecidableEq, Repr

/-- Process-wide registry state: the type table (name to
StructDescriptor) and the instance table (string key to object address
plus type name). -/
structure InteropState where
  types : List (String × StructDesc)
  instances : List (String × Nat × String)

/-- The registry state of a freshly started process. -/
def emptyState : InteropState := { types := [], instances := [] }

/-- Modelled from the spec: register_type is idempotent — if the name is
not yet present the descriptor is appended; if it is present the hash is
verified and the call is a no-op, returning TypeConflict (and never
overwriting) when the hashes differ (spec section 4.2). -/
def register_type (st : InteropState) (name : String) (d : StructDesc) :
    RegStatus × InteropState :=
  match lookupName st.types name with
  | some d0 =>
      if d0.type_hash = d.type_hash then (.success, st) else (.typeConflict, st)
  | none => (.success, { st with types := st.types ++ [(name, d)] })

/-- Modelled from the spec: get_type_info returns the registered
StructDescriptor for a name, null if unknown (spec section 6). -/
def glz_get_type_info (st : InteropState) (name : String) : Option StructDesc :=
  lookupName st.types name

/-- Modelled from the spec: register_instance records a string key, the
object's address and its type name; re-registering a key overwrites
(spec section 4.5) — the newest entry is consulted first. -/
def register_instance (st : InteropState) (key : String) (addr : Nat)
    (type_name : String) : InteropState :=
  { st with instances := (key, addr, type_name) :: st.instances }

/-- Modelled from the spec: lookup_instance returns the registered
address and type name for a key, if any (spec section 4.5). -/
def lookup_instance (st : InteropState) (key : String) : Option (Nat × String) :=
  lookupName st.instances key

/-- A type lookup observed as an operation on the registry state: it
returns the result together with the state, which it never mutates
(lookups are pure reads, spec section 5). -/
def lookupStep (st : InteropState) (name : String) :
    Option StructDesc × InteropState :=
  (glz_get_type_info st name, st)

/-- Running a sequence of type lookups for their state effect. -/
def runLookups (st : InteropState) (names : List String) : InteropState :=
  names.foldl (fun s n => (lookupStep s n).2) st

/-- First member of a descriptor with a given name. -/
def memberByName (d : StructDesc) (n : String) : Option MemberMeta :=
  d.members.find? (fun m => m.name == n)

/-- Modelled from the spec: dereferencing a Struct-tagged member
descriptor resolves the stored nested-type name against the registry at
access time, not at registration time (spec section 4.2). -/
def resolve_struct_member (st : InteropState) (m : MemberMeta) :
    Option StructDesc :=
  match m.tdesc with
  | .node .Struct _ _ (some u) => glz_get_type_info st u
  | _ => none

/-! ## Member lists of the registered test types

These transcribe the glz::meta specializations and struct declarations
in src/test/test_structs_glaze_simple.hpp,
src/test/test_vector_member_functions.hpp and
src/test/integration/test_generic_nested.cpp. -/

/-- glz::meta of Address (street, city, zipcode). -/
def addressMeta : List MetaEntry :=
  [.dataEntry "street" .stringT,
   .dataEntry "city" .stringT,
   .dataEntry "zipcode" .i32]

/-- glz::meta of Person (name, age, address, scores). -/
def personMeta : List MetaEntry :=
  [.dataEntry "name" .stringT,
   .dataEntry "age" .i32,
   .dataEntry "address" (.structT "Address"),
   .dataEntry "scores" (.vectorT .i32)]

/-- glz::meta of TestAllTypes. -/
def testAllTypesMeta : List MetaEntry :=
  [.dataEntry "int_value" .i32,
   .dataEntry "float_value" .f32,
   .dataEntry "bool_value" .boolT,
   .dataEntry "string_value" .stringT,
   .dataEntry "float_vector" (.vectorT .f32),
   .dataEntry "complex_vector" (.vectorT (.complexT .f32))]

/-- glz::meta of EdgeCaseStruct. -/
def edgeCaseMeta : List MetaEntry :=
  [.dataEntry "empty_string" .stringT,
   .dataEntry "empty_vector" (.vectorT .f32),
   .dataEntry "zero_int" .i32,
   .dataEntry "zero_float" .f32,
   .dataEntry "false_bool" .boolT]

/-- glz::meta of LargeDataStruct. -/
def largeDataMeta : List MetaEntry :=
  [.dataEntry "large_vector" (.vectorT .f32),
   .dataEntry "long_string" .stringT,
   .dataEntry "complex_data" (.vectorT (.complexT .f32))]

/-- glz::meta of OptionalTestStruct. -/
def optionalTestMeta : List MetaEntry :=
  [.dataEntry "opt_int" (.optionalT .i32),
   .dataEntry "opt_string" (.optionalT .stringT),
   .dataEntry "opt_float" (.optionalT .f32),
   .dataEntry "opt_bool" (.optionalT .boolT),
   .dataEntry "required_field" .stringT]

/-- glz::meta of OptionalNestedStruct. -/
def optionalNestedMeta : List MetaEntry :=
  [.dataEntry "opt_address" (.optionalT (.structT "Address")),
   .dataEntry "name" .stringT,
   .dataEntry "opt_scores" (.optionalT (.vectorT .i32))]

/-- glz::meta of Calculator — one data member and seventeen member
functions, with parameter lists, void-return and const flags read off
the declarations in src/test/test_structs_glaze_simple.hpp. -/
def calculatorMeta : List MetaEntry :=
  [.dataEntry "value" .f64,
   .funcEntry "add" [.f64] false false,
   .funcEntry "multiply" [.f64] false false,
   .funcEntry "reset" [] true false,
   .funcEntry "getValue" [] false true,
   .funcEntry "setValue" [.f64] true false,
   .funcEntry "compute" [.f64, .f64, .f64] false false,
   .funcEntry "describe" [] false true,
   .funcEntry "isPositive" [] false true,
   .funcEntry "isGreaterThan" [.f64] false true,
   .funcEntry "toInt" [] false true,
   .funcEntry "addFloat" [.f32] false false,
   .funcEntry "getSquare" [] false true,
   .funcEntry "setSign" [.boolT] true false,
   .funcEntry "complexOperation" [.i32, .f32, .boolT] false false,
   .funcEntry "getZero" [] false true,
   .funcEntry "increment" [] true false,
   .funcEntry "doubleOperation" [.f64] false false]

/-- glz::meta of VectorProcessor
(src/test/test_vector_member_functions.hpp). -/
def vectorProcessorMeta : List MetaEntry :=
  [.dataEntry "scale_factor" .f64,
   .funcEntry "sumIntegers" [.vectorT .i32] false false,
   .funcEntry "averageFloats" [.vectorT .f32] false false,
   .funcEntry "scaleDoubles" [.vectorT .f64] false false,
   .funcEntry "joinStrings" [.vectorT .stringT, .stringT] false false,
   .funcEntry "complexMagnitudes" [.vectorT (.complexT .f32)] false false,
   .funcEntry "findMinMax" [.vectorT .f64] false false,
   .funcEntry "countGreaterThan" [.vectorT .f64, .f64] false false,
   .funcEntry "dotProduct" [.vectorT .f64, .vectorT .f64] false false,
   .funcEntry "elementWiseAdd" [.vectorT .f64, .vectorT .f64] false false,
   .funcEntry "filterPositive" [.vectorT .i32] false false,
   .funcEntry "reverseAndScale" [.vectorT .f32] false false,
   .funcEntry "normalizeIntegers" [.vectorT .i32] false false,
   .funcEntry "updateScaleFromVector" [.vectorT .f64] true false,
   .funcEntry "allPositive" [.vectorT .f64] false true,
   .funcEntry "computeWeightedSum" [.vectorT .f64, .vectorT .f64] false false,
   .funcEntry "processData" [.vectorT .i32, .vectorT .stringT, .f64] false false]

/-- glz::meta of VectorEdgeCases
(src/test/test_vector_member_functions.hpp). -/
def vectorEdgeCasesMeta : List MetaEntry :=
  [.funcEntry "describeVector" [.vectorT .f64] false false,
   .funcEntry "getEmptyVector" [] false false,
   .funcEntry "sumLargeVector" [.vectorT .f64] false false,
   .funcEntry "createMatrix" [.i32, .i32, .i32] false false]

/-- Member list of Config (aggregate fields: name, version) from
src/test/integration/test_generic_nested.cpp, supplied by the external
reflection capability. -/
def configMeta : List MetaEntry :=
  [.dataEntry "name" .stringT,
   .dataEntry "version" .i32]

/-- Member list of Database (connection_string, is_connected, and the
nested Config member) from src/test/integration/test_generic_nested.cpp. -/
def databaseMeta : List MetaEntry :=
  [.dataEntry "connection_string" .stringT,
   .dataEntry "is_connected" .boolT,
   .dataEntry "config" (.structT "Config")]

/-- Descriptor of Address (hash token 1). -/
def addressDesc : StructDesc := buildStructDesc "Address" 1 0 addressMeta

/-- Descriptor of Person (hash token 2). -/
def personDesc : StructDesc := buildStructDesc "Person" 2 0 personMeta

/-- Descriptor of TestAllTypes (hash token 3). -/
def testAllTypesDesc : StructDesc := buildStructDesc "TestAllTypes" 3 0 testAllTypesMeta

/-- Descriptor of EdgeCaseStruct (hash token 4). -/
def edgeCaseDesc : StructDesc := buildStructDesc "EdgeCaseStruct" 4 0 edgeCaseMeta

/-- Descriptor of LargeDataStruct (hash token 5). -/
def largeDataDesc : StructDesc := buildStructDesc "LargeDataStruct" 5 0 largeDataMeta

/-- Descriptor of OptionalTestStruct (hash token 6). -/
def optionalTestDesc : StructDesc := buildStructDesc "OptionalTestStruct" 6 0 optionalTestMeta

/-- Descriptor of OptionalNestedStruct (hash token 7). -/
def optionalNestedDesc : StructDesc :=
  buildStructDesc "OptionalNestedStruct" 7 0 optionalNestedMeta

/-- Descriptor of Calculator (hash token 8). -/
def calculatorDesc : StructDesc := buildStructDesc "Calculator" 8 0 calculatorMeta

/-- Descriptor of VectorProcessor (hash token 9). -/
def vectorProcessorDesc : StructDesc :=
  buildStructDesc "VectorProcessor" 9 0 vectorProcessorMeta

/-- Descriptor of VectorEdgeCases (hash token 10). -/
def vectorEdgeCasesDesc : StructDesc :=
  buildStructDesc "VectorEdgeCases" 10 0 vectorEdgeCasesMeta

/-- Descriptor of Config (hash token 11). -/
def configDesc : StructDesc := buildStructDesc "Config" 11 0 configMeta

/-- Descriptor of Database (hash token 12). -/
def databaseDesc : StructDesc := buildStructDesc "Database" 12 0 databaseMeta

/-- The registration sequence of register_test_types
(src/test/test_structs_glaze_simple.hpp lines 356-384): ten
register_type calls followed by eleven register_instance calls, in
source order.  Object addresses are abstract, supplied by the
assignment addr. -/
def register_test_types (addr : String → Nat) (st0 : InteropState) : InteropState :=
  let st := (register_type st0 "Address" addressDesc).2
  let st := (register_type st "Person" personDesc).2
  let st := (register_type st "TestAllTypes" testAllTypesDesc).2
  let st := (register_type st "EdgeCaseStruct" edgeCaseDesc).2
  let st := (register_type st "LargeDataStruct" largeDataDesc).2
  let st := (register_type st "OptionalTestStruct" optionalTestDesc).2
  let st := (register_type st "OptionalNestedStruct" optionalNestedDesc).2
  let st := (register_type st "Calculator" calculatorDesc).2
  let st := (register_type st "VectorProcessor" vectorProcessorDesc).2
  let st := (register_type st "VectorEdgeCases" vectorEdgeCasesDesc).2
  let st := register_instance st "global_person" (addr "global_person") "Person"
  let st := register_instance st "global_person_target" (addr "global_person_target") "Person"
  let st := register_instance st "global_test" (addr "global_test") "TestAllTypes"
  let st := register_instance st "global_edge" (addr "global_edge") "EdgeCaseStruct"
  let st := register_instance st "global_optional_with_values"
      (addr "global_optional_with_values") "OptionalTestStruct"
  let st := register_instance st "global_optional_empty"
      (addr "global_optional_empty") "OptionalTestStruct"
  let st := register_instance st "global_optional_nested_with_values"
      (addr "global_optional_nested_with_values") "OptionalNestedStruct"
  let st := register_instance st "global_optional_nested_empty"
      (addr "global_optional_nested_empty") "OptionalNestedStruct"
  let st := register_instance st "global_calculator" (addr "global_calculator") "Calculator"
  let st := register_instance st "global_vector_processor"
      (addr "global_vector_processor") "VectorProcessor"
  register_instance st "global_vector_edge_cases"
    (addr "global_vector_edge_cases") "VectorEdgeCases"

/-- The registration sequence of init_generic_test
(src/test/integration/test_generic_nested.cpp): register Config, then
Database, then the test_database instance, starting from a fresh
process state. -/
def init_generic_test (addr : Nat) : InteropState :=
  let st := (register_type emptyState "Config" configDesc).2
  let st := (register_type st "Database" databaseDesc).2
  register_instance st "test_database" addr "Database"

/-! ## Registry theorems -/

/-- Appending a fresh binding at the end of an association list makes it
findable when the name was absent before. -/
theorem lookupName_append_last {α : Type} (xs : List (String × α)) (n : String) (d : α)
    (h : lookupName xs n = none) : lookupName (xs ++ [(n, d)]) n = some d := by
  induction xs with
  | nil => simp [lookupName]
  | cons p rest ih =>
      obtain ⟨k, v⟩ := p
      by_cases hk : k = n
      · simp [lookupName, hk] at h
      · simp only [List.cons_append, lookupName, if_neg hk] at h ⊢
        exact ih h

/-- Type lookups never change the registry state. -/
theorem runLookups_id (names : List String) : ∀ st, runLookups st names = st := by
  induction names with
  | nil => intro st; rfl
  | cons a rest ih => intro st; exact ih st

/-- C2: calling register_type a second time with the same type after a
successful first registration is a no-op returning success, leaving the
registry (and in particular its size) unchanged; registering a
descriptor with a different hash under an already-taken name returns
TypeConflict and does not overwrite the existing StructDescriptor. -/
theorem C2_register_type_idempotent_conflict :
    (∀ (st : InteropState) (name : String) (d : StructDesc),
        (register_type st name d).1 = RegStatus.success →
          register_type (register_type st name d).2 name d
              = (RegStatus.success, (register_type st name d).2) ∧
          (register_type (register_type st name d).2 name d).2.types.length
              = (register_type st name d).2.types.length) ∧
    (∀ (st : InteropState) (name : String) (d0 d1 : StructDesc),
        glz_get_type_info st name = some d0 →
        d1.type_hash ≠ d0.type_hash →
          register_type st name d1 = (RegStatus.typeConflict, st) ∧
          glz_get_type_info (register_type st name d1).2 name = some d0) := by
  constructor
  · intro st name d h
    rcases hl : lookupName st.types name with _ | d0
    · have hstep : register_type st name d
          = (RegStatus.success, { st with types := st.types ++ [(name, d)] }) := by
        simp [register_type, hl]
      have h2 : lookupName (st.types ++ [(name, d)]) name = some d :=
        lookupName_append_last _ _ _ hl
      rw [hstep]
      constructor
      · simp [register_type, h2]
      · simp [register_type, h2]
    · by_cases hh : d0.type_hash = d.type_hash
      · have hstep : register_type st name d = (RegStatus.success, st) := by
          simp [register_type, hl, hh]
        rw [hstep]
        constructor
        · simp [register_type, hl, hh]
        · simp [register_type, hl, hh]
      · have hstep : register_type st name d = (RegStatus.typeConflict, st) := by
          simp [register_type, hl, hh]
        rw [hstep] at h
        exact absurd h (by simp)
  · intro st name d0 d1 h0 hne
    have hl : lookupName st.types name = some d0 := h0
    have hne' : ¬ d0.type_hash = d1.type_hash := fun h => hne h.symm
    have hstep : register_type st name d1 = (RegStatus.typeConflict, st) := by
      simp [register_type, hl, hne']
    exact ⟨hstep, by rw [hstep]; exact h0⟩

/-- C2 witness: concretely, registering Config twice from a fresh state
gives success and the unchanged registry the second time, and
registering a different-hash descriptor under the name Config gives
TypeConflict with Config's original descriptor still registered. -/
theorem C2_witness :
    (register_type (register_type emptyState "Config" configDesc).2 "Config" configDesc
        = (RegStatus.success, (register_type emptyState "Config" configDesc).2)) ∧
    (register_type (register_type emptyState "Config" configDesc).2 "Config" databaseDesc
        = (RegStatus.typeConflict, (register_type emptyState "Config" configDesc).2)) ∧
    glz_get_type_info (register_type emptyState "Config" configDesc).2 "Config"
        = some configDesc :=
  ⟨(C2_register_type_idempotent_conflict.1 emptyState "Config" configDesc rfl).1,
   (C2_register_type_idempotent_conflict.2 (register_type emptyState "Config" configDesc).2
      "Config" configDesc databaseDesc rfl (by decide)).1,
   (C2_register_type_idempotent_conflict.2 (register_type emptyState "Config" configDesc).2
      "Config" configDesc databaseDesc rfl (by decide)).2⟩

/-- C6: after the init_generic_test registration sequence (Config and
Database registered, Database holding a nested Struct-tagged member
referencing Config), looking up Database succeeds; any sequence of type
lookups performed before it — in particular a lookup of Config before
or after — leaves the registry state and hence the result unchanged;
and the nested member's stored type name resolves against the registry
at access time. -/
theorem C6_nested_lookup_order_independent : ∀ addr : Nat,
    (glz_get_type_info (init_generic_test addr) "Database").isSome = true ∧
    (glz_get_type_info (init_generic_test addr) "Config").isSome = true ∧
    (∀ pre : List String,
        glz_get_type_info (runLookups (init_generic_test addr) pre) "Database"
          = glz_get_type_info (init_generic_test addr) "Database") ∧
    (∃ m, memberByName databaseDesc "config" = some m ∧
        (resolve_struct_member (init_generic_test addr) m).isSome = true) := by
  intro addr
  refine ⟨rfl, rfl, ?_, ?_⟩
  · intro pre
    rw [runLookups_id]
  · exact ⟨buildMember (.dataEntry "config" (.structT "Config")), rfl, rfl⟩

/-- C7: after the register_test_types sequence has registered the
instance key global_calculator with the global Calculator object's
address and type name Calculator, lookup_instance returns exactly that
address paired with the type name Calculator. -/
theorem C7_lookup_global_calculator : ∀ addr : String → Nat,
    lookup_instance (register_test_types addr emptyState) "global_calculator"
      = some (addr "global_calculator", "Calculator") := by
  intro addr
  rfl

/-- Correspondence between one member record of a registered descriptor
and the glz::meta entry it was built from: data members carry kind 0;
member functions carry kind 1, a non-null auto-generated invoker and a
function descriptor recording the declared parameter count, void-return
and const-ness flags. -/
def reflectsEntry (m : MemberMeta) : MetaEntry → Prop
  | .dataEntry n _ => m.name = n ∧ m.kind = 0
  | .funcEntry n ps rv c =>
      m.name = n ∧ m.kind = 1 ∧ m.function_ptr = true ∧
        m.fdesc = some { param_count := ps.length, returns_void := rv, is_const := c }

/-- The built member list corresponds entry-by-entry, in order, to the
glz::meta list it came from. -/
theorem forall2_reflects (meta : List MetaEntry) :
    List.Forall₂ reflectsEntry (meta.map buildMember) meta := by
  induction meta with
  | nil => exact List.Forall₂.nil
  | cons e rest ih =>
      refine List.Forall₂.cons ?_ ih
      cases e with
      | dataEntry n ty => exact ⟨rfl, rfl⟩
      | funcEntry n ps rv c => exact ⟨rfl, rfl, rfl, rfl⟩

/-- C10: for a type registered from a glz::meta member list under a
fresh name, glz_get_type_info returns a StructDescriptor listing exactly
the meta entries, in declaration order, each data member with kind 0 and
each member function with kind 1, a non-null auto-generated invoker in
its function_ptr field and a function descriptor recording its parameter
count and const-ness flag. -/
theorem C10_descriptor_reflects_meta (st : InteropState) (name : String)
    (hash size : Nat) (meta : List MetaEntry)
    (hfree : lookupName st.types name = none) :
    glz_get_type_info ((register_type st name (buildStructDesc name hash size meta)).2) name
        = some (buildStructDesc name hash size meta) ∧
    (buildStructDesc name hash size meta).members.length = meta.length ∧
    List.Forall₂ reflectsEntry (buildStructDesc name hash size meta).members meta := by
  refine ⟨?_, by simp [buildStructDesc], forall2_reflects meta⟩
  have hstep : (register_type st name (buildStructDesc name hash size meta)).2
      = { st with types := st.types ++ [(name, buildStructDesc name hash size meta)] } := by
    simp [register_type, hfree]
  rw [hstep]
  exact lookupName_append_last _ _ _ hfree

/-- C10 witness: registering Calculator from its eighteen-entry
glz::meta list on a fresh registry yields a descriptor whose member list
corresponds entry-by-entry to the meta list. -/
theorem C10_witness :
    glz_get_type_info ((register_type emptyState "Calculator" calculatorDesc).2) "Calculator"
        = some calculatorDesc ∧
    calculatorDesc.members.length = calculatorMeta.length ∧
    List.Forall₂ reflectsEntry calculatorDesc.members calculatorMeta :=
  C10_descriptor_reflects_meta emptyState "Calculator" 8 0 calculatorMeta rfl

/-! ## Runtime values and the member accessor layer

Runtime values crossing the boundary.  C++ double/float are modelled as
rationals, complex numbers as re/im pairs, vectors as lists, optionals
as Option. -/

/-- Address struct (src/test/test_structs_glaze_simple.hpp). -/
structure Address where
  street : String
  city : String
  zipcode : Int
deriving DecidableEq, Repr

/-- A type-erased runtime value, one constructor per member shape
occurring in the modelled structs. -/
inductive Value where
  | vBool (b : Bool)
  | vI32 (n : Int)
  | vF32 (q : ℚ)
  | vF64 (q : ℚ)
  | vStr (s : String)
  | vVecF32 (xs : List ℚ)
  | vVecI32 (xs : List Int)
  | vVecComplexF32 (xs : List (ℚ × ℚ))
  | vOptI32 (o : Option Int)
  | vOptStr (o : Option String)
  | vOptF32 (o : Option ℚ)
  | vOptBool (o : Option Bool)
  | vAddress (a : Address)
deriving DecidableEq, Repr

/-- Modelled from the spec: a data member's uniform accessor pair — the
getter reads the field from the instance, the setter assigns a value of
the member's exact type into it (deep copy for owning types), failing on
a value of the wrong shape (spec section 4.3). -/
structure DataMember (S : Type) where
  name : String
  getter : S → Value
  setter : S → Value → Option S

/-- EdgeCaseStruct (src/test/test_structs_glaze_simple.hpp). -/
structure EdgeCaseStruct where
  empty_string : String
  empty_vector : List ℚ
  zero_int : Int
  zero_float : ℚ
  false_bool : Bool
deriving DecidableEq, Repr

/-- OptionalTestStruct (src/test/test_structs_glaze_simple.hpp). -/
structure OptionalTestStruct where
  opt_int : Option Int
  opt_string : Option String
  opt_float : Option ℚ
  opt_bool : Option Bool
  required_field : String
deriving DecidableEq, Repr

/-- TestAllTypes (src/test/test_structs_glaze_simple.hpp). -/
structure TestAllTypes where
  int_value : Int
  float_value : ℚ
  bool_value : Bool
  string_value : String
  float_vector : List ℚ
  complex_vector : List (ℚ × ℚ)
deriving DecidableEq, Repr

/-- Person (src/test/test_structs_glaze_simple.hpp). -/
structure Person where
  name : String
  age : Int
  address : Address
  scores : List Int
deriving DecidableEq, Repr

/-- Accessor pairs for the five EdgeCaseStruct members, in glz::meta
order. -/
def edgeCaseMembers : List (DataMember EdgeCaseStruct) :=
  [⟨"empty_string", fun s => .vStr s.empty_string,
      fun s v => match v with
        | .vStr x => some { s with empty_string := x }
        | _ => none⟩,
   ⟨"empty_vector", fun s => .vVecF32 s.empty_vector,
      fun s v => match v with
        | .vVecF32 x => some { s with empty_vector := x }
        | _ => none⟩,
   ⟨"zero_int", fun s => .vI32 s.zero_int,
      fun s v => match v with
        | .vI32 x => some { s with zero_int := x }
        | _ => none⟩,
   ⟨"zero_float", fun s => .vF32 s.zero_float,
      fun s v => match v with
        | .vF32 x => some { s with zero_float := x }
        | _ => none⟩,
   ⟨"false_bool", fun s => .vBool s.false_bool,
      fun s v => match v with
        | .vBool x => some { s with false_bool := x }
        | _ => none⟩]

/-- Accessor pairs for the five OptionalTestStruct members, in glz::meta
order. -/
def optionalTestMembers : List (DataMember OptionalTestStruct) :=
  [⟨"opt_int", fun s => .vOptI32 s.opt_int,
      fun s v => match v with
        | .vOptI32 x => some { s with opt_int := x }
        | _ => none⟩,
   ⟨"opt_string", fun s => .vOptStr s.opt_string,
      fun s v => match v with
        | .vOptStr x => some { s with opt_string := x }
        | _ => none⟩,
   ⟨"opt_float", fun s => .vOptF32 s.opt_float,
      fun s v => match v with
        | .vOptF32 x => some { s with opt_float := x }
        | _ => none⟩,
   ⟨"opt_bool", fun s => .vOptBool s.opt_bool,
      fun s v => match v with
        | .vOptBool x => some { s with opt_bool := x }
        | _ => none⟩,
   ⟨"required_field", fun s => .vStr s.required_field,
      fun s v => match v with
        | .vStr x => some { s with required_field := x }
        | _ => none⟩]

/-- Accessor pairs for the six TestAllTypes members, in glz::meta
order. -/
def testAllTypesMembers : List (DataMember TestAllTypes) :=
  [⟨"int_value", fun s => .vI32 s.int_value,
      fun s v => match v with
        | .vI32 x => some { s with int_value := x }
        | _ => none⟩,
   ⟨"float_value", fun s => .vF32 s.float_value,
      fun s v => match v with
        | .vF32 x => some { s with float_value := x }
        | _ => none⟩,
   ⟨"bool_value", fun s => .vBool s.bool_value,
      fun s v => match v with
        | .vBool x => some { s with bool_value := x }
        | _ => none⟩,
   ⟨"string_value", fun s => .vStr s.string_value,
      fun s v => match v with
        | .vStr x => some { s with string_value := x }
        | _ => none⟩,
   ⟨"float_vector", fun s => .vVecF32 s.float_vector,
      fun s v => match v with
        | .vVecF32 x => some { s with float_vector := x }
        | _ => none⟩,
   ⟨"complex_vector", fun s => .vVecComplexF32 s.complex_vector,
      fun s v => match v with
        | .vVecComplexF32 x => some { s with complex_vector := x }
        | _ => none⟩]

/-- Accessor pairs for the four Person members, in glz::meta order
(address is a nested Struct member). -/
def personMembers : List (DataMember Person) :=
  [⟨"name", fun s => .vStr s.name,
      fun s v => match v with
        | .vStr x => some { s with name := x }
        | _ => none⟩,
   ⟨"age", fun s => .vI32 s.age,
      fun s v => match v with
        | .vI32 x => some { s with age := x }
        | _ => none⟩,
   ⟨"address", fun s => .vAddress s.address,
      fun s v => match v with
        | .vAddress x => some { s with address := x }
        | _ => none⟩,
   ⟨"scores", fun s => .vVecI32 s.scores,
      fun s v => match v with
        | .vVecI32 x => some { s with scores := x }
        | _ => none⟩]

/-- Global EdgeCaseStruct instance global_edge_case: empty string, empty
vector, zero int, zero float, false bool. -/
def global_edge_case : EdgeCaseStruct :=
  { empty_string := "", empty_vector := [], zero_int := 0, zero_float := 0,
    false_bool := false }

/-- Global OptionalTestStruct instance with every optional populated
(the float literal 3.14f is modelled by its decimal value). -/
def global_optional_with_values : OptionalTestStruct :=
  { opt_int := some 42, opt_string := some "test string",
    opt_float := some (157 / 50), opt_bool := some true,
    required_field := "required field value" }

/-- Global OptionalTestStruct instance with every optional empty. -/
def global_optional_empty : OptionalTestStruct :=
  { opt_int := none, opt_string := none, opt_float := none,
    opt_bool := none, required_field := "only required field" }

/-- C4: for every modelled data member of the supported outer types
(primitives, string, vector, complex vector, optional, nested struct),
writing a value of the member's shape through the setter and reading it
back through the getter yields the value written. -/
theorem C4_setter_getter_roundtrip :
    (∀ (i : Fin edgeCaseMembers.length) (s s' : EdgeCaseStruct) (v : Value),
        (edgeCaseMembers.get i).setter s v = some s' →
        (edgeCaseMembers.get i).getter s' = v) ∧
    (∀ (i : Fin optionalTestMembers.length) (s s' : OptionalTestStruct) (v : Value),
        (optionalTestMembers.get i).setter s v = some s' →
        (optionalTestMembers.get i).getter s' = v) ∧
    (∀ (i : Fin testAllTypesMembers.length) (s s' : TestAllTypes) (v : Value),
        (testAllTypesMembers.get i).setter s v = some s' →
        (testAllTypesMembers.get i).getter s' = v) ∧
    (∀ (i : Fin personMembers.length) (s s' : Person) (v : Value),
        (personMembers.get i).setter s v = some s' →
        (personMembers.get i).getter s' = v) := by
  refine ⟨?_, ?_, ?_, ?_⟩ <;> intro i s s' v h <;>
    (fin_cases i <;> cases v <;>
      first
      | exact Option.noConfusion h
      | (injection h with h2; subst h2; rfl))

/-- C4 witness: round-trips at the edge values the claim singles out —
the empty string and the empty vector on the global edge-case instance,
a zero-valued primitive, and an optional member written in both the
has-value and the empty state. -/
theorem C4_witness :
    (edgeCaseMembers.get ⟨0, by decide⟩).getter global_edge_case = .vStr "" ∧
    (edgeCaseMembers.get ⟨1, by decide⟩).getter global_edge_case = .vVecF32 [] ∧
    (edgeCaseMembers.get ⟨2, by decide⟩).getter global_edge_case = .vI32 0 ∧
    (optionalTestMembers.get ⟨0, by decide⟩).getter
        { opt_int := some 42, opt_string := none, opt_float := none,
          opt_bool := none, required_field := "r" } = .vOptI32 (some 42) ∧
    (optionalTestMembers.get ⟨0, by decide⟩).getter
        { opt_int := none, opt_string := none, opt_float := none,
          opt_bool := none, required_field := "r" } = .vOptI32 none :=
  ⟨C4_setter_getter_roundtrip.1 ⟨0, by decide⟩
      { empty_string := "x", empty_vector := [], zero_int := 0, zero_float := 0,
        false_bool := false }
      global_edge_case (.vStr "") (by decide),
   C4_setter_getter_roundtrip.1 ⟨1, by decide⟩
      { empty_string := "", empty_vector := [1], zero_int := 0, zero_float := 0,
        false_bool := false }
      global_edge_case (.vVecF32 []) (by decide),
   C4_setter_getter_roundtrip.1 ⟨2, by decide⟩
      { empty_string := "", empty_vector := [], zero_int := 7, zero_float := 0,
        false_bool := false }
      global_edge_case (.vI32 0) (by decide),
   C4_setter_getter_roundtrip.2.1 ⟨0, by decide⟩
      { opt_int := none, opt_string := none, opt_float := none,
        opt_bool := none, required_field := "r" }
      { opt_int := some 42, opt_string := none, opt_float := none,
        opt_bool := none, required_field := "r" }
      (.vOptI32 (some 42)) (by decide),
   C4_setter_getter_roundtrip.2.1 ⟨0, by decide⟩
      { opt_int := some 1, opt_string := none, opt_float := none,
        opt_bool := none, required_field := "r" }
      { opt_int := none, opt_string := none, opt_float := none,
        opt_bool := none, required_field := "r" }
      (.vOptI32 none) (by decide)⟩

/-! ## Invocation engine and member functions -/

/-- Status of a dynamic member-function call (spec sections 4.4 and 7). -/
inductive CallStatus where
  | success
  | arityMismatch
  | wrongMemberKind
  | typeMismatch
deriving DecidableEq, Repr

/-- A registered member function as the engine sees it: the declared
parameter count, the const-ness flag, whether the return type is void,
and the auto-generated type-erased invoker, which consumes the unpacked
argument values and produces the updated instance and the return value
(none for void). -/
structure MemberFn (S : Type) where
  param_count : Nat
  is_const : Bool
  returns_void : Bool
  invoke : S → List Value → Option (S × Option Value)

/-- A member as the engine receives it: a data member (accessor pair) or
a member function. -/
inductive Member (S : Type) where
  | dataMem (d : DataMember S)
  | funcMem (f : MemberFn S)

/-- Modelled from the spec: call_member_function — calling through a
data member is WrongMemberKind; the argument count must equal the
declared parameter count, else ArityMismatch is returned before the
invoker runs and the instance is untouched; otherwise the invoker is
run, and the result is placement-constructed into the caller's result
buffer only when one was supplied (spec section 4.4). -/
def call_member_function {S : Type} (m : Member S) (inst : S) (args : List Value)
    (has_result_buffer : Bool) : CallStatus × S × Option Value :=
  match m with
  | .dataMem _ => (.wrongMemberKind, inst, none)
  | .funcMem f =>
      if args.length = f.param_count then
        match f.invoke inst args with
        | some (inst', r) => (.success, inst', if has_result_buffer then r else none)
        | none => (.typeMismatch, inst, none)
      else (.arityMismatch, inst, none)

/-- Calculator (src/test/test_structs_glaze_simple.hpp): a double field
value, defaulting to 0.0. -/
structure Calculator where
  value : ℚ
deriving DecidableEq, Repr

/-- Calculator::add — value += x; return value. -/
def Calculator.add (c : Calculator) (x : ℚ) : Calculator × ℚ :=
  ({ value := c.value + x }, c.value + x)

/-- Calculator::reset — value = 0.0. -/
def Calculator.reset (_c : Calculator) : Calculator :=
  { value := 0 }

/-- Calculator::compute — returns a * value + b * value + c without
modifying the instance. -/
def Calculator.compute (c : Calculator) (a b c2 : ℚ) : ℚ :=
  a * c.value + b * c.value + c2

/-- Modelled from the spec: the auto-generated invoker for
Calculator::add (one double parameter, double return). -/
def Calculator.addFn : MemberFn Calculator where
  param_count := 1
  is_const := false
  returns_void := false
  invoke := fun c args =>
    match args with
    | [.vF64 x] => some ((c.add x).1, some (.vF64 (c.add x).2))
    | _ => none

/-- Modelled from the spec: the auto-generated invoker for
Calculator::reset (no parameters, void return). -/
def Calculator.resetFn : MemberFn Calculator where
  param_count := 0
  is_const := false
  returns_void := true
  invoke := fun c args =>
    match args with
    | [] => some (c.reset, none)
    | _ => none

/-- Modelled from the spec: the auto-generated invoker for
Calculator::compute (three double parameters, double return). -/
def Calculator.computeFn : MemberFn Calculator where
  param_count := 3
  is_const := false
  returns_void := false
  invoke := fun c args =>
    match args with
    | [.vF64 a, .vF64 b, .vF64 c2] => some (c, some (.vF64 (c.compute a b c2)))
    | _ => none

/-- MathOperations (src/examples/member_function_comparison.cpp): a
double accumulator defaulting to 0.0. -/
structure MathOperations where
  accumulator : ℚ
deriving DecidableEq, Repr

/-- MathOperations::clear — accumulator = 0.0. -/
def MathOperations.clear (_m : MathOperations) : MathOperations :=
  { accumulator := 0 }

/-- Modelled from the spec: the auto-generated invoker for
MathOperations::clear (no parameters, void return). -/
def MathOperations.clearFn : MemberFn MathOperations where
  param_count := 0
  is_const := false
  returns_void := true
  invoke := fun m args =>
    match args with
    | [] => some (m.clear, none)
    | _ => none

/-- C1: on a Calculator whose value starts at 0.0, invoking add through
the engine with argument 5.0 returns 5.0 and leaves value at 5.0, and a
second invocation with 3.0 on the resulting instance returns 8.0 (and
leaves value at 8.0). -/
theorem C1_calculator_add_sequence :
    call_member_function (.funcMem Calculator.addFn) { value := 0 } [.vF64 5] true
        = (CallStatus.success, { value := 5 }, some (.vF64 5)) ∧
    call_member_function (.funcMem Calculator.addFn) { value := 5 } [.vF64 3] true
        = (CallStatus.success, { value := 8 }, some (.vF64 8)) := by
  constructor <;> norm_num [call_member_function, Calculator.addFn, Calculator.add]

/-- C3: calling a registered member function through the engine with an
argument array whose length differs from the declared parameter count —
in particular Calculator::compute with its three-parameter signature —
returns ArityMismatch and leaves the instance unchanged. -/
theorem C3_arity_mismatch : ∀ (c : Calculator) (args : List Value) (buf : Bool),
    args.length ≠ Calculator.computeFn.param_count →
    call_member_function (.funcMem Calculator.computeFn) c args buf
        = (CallStatus.arityMismatch, c, none) := by
  intro c args buf h
  simp [call_member_function, h]

/-- C3 witness: Calculator::compute called with a single argument
pointer on the instance with value 2 returns ArityMismatch with the
instance intact. -/
theorem C3_witness :
    call_member_function (.funcMem Calculator.computeFn) { value := 2 } [.vF64 1] true
        = (CallStatus.arityMismatch, { value := 2 }, none) :=
  C3_arity_mismatch { value := 2 } [.vF64 1] true (by decide)

/-- C9: calling a void-returning member function through the engine with
a null result buffer succeeds and performs the effect: Calculator::reset
leaves value at 0.0 and MathOperations::clear leaves the accumulator at
0.0, for any starting instance. -/
theorem C9_void_with_null_buffer : ∀ (c : Calculator) (m : MathOperations),
    call_member_function (.funcMem Calculator.resetFn) c [] false
        = (CallStatus.success, { value := 0 }, none) ∧
    call_member_function (.funcMem MathOperations.clearFn) m [] false
        = (CallStatus.success, { accumulator := 0 }, none) := by
  intro c m
  exact ⟨rfl, rfl⟩

/-! ## Variant types (src/test/test_variant_types.hpp) -/

/-- Point2D: two float coordinates. -/
structure Point2D where
  x : ℚ
  y : ℚ
deriving DecidableEq, Repr

/-- Point3D: three float coordinates. -/
structure Point3D where
  x : ℚ
  y : ℚ
  z : ℚ
deriving DecidableEq, Repr

/-- Color: four uint8_t channels (modelled as naturals; a defaults to
255). -/
structure Color where
  r : Nat
  g : Nat
  b : Nat
  a : Nat
deriving DecidableEq, Repr

/-- Vehicle: name, wheel count and max speed. -/
structure Vehicle where
  name : String
  wheels : Int
  max_speed : ℚ
deriving DecidableEq, Repr

/-- SimpleVariant = std::variant of int, std::string, double, with the
alternatives in declaration order. -/
inductive SimpleVariant where
  | intAlt (n : Int)
  | strAlt (s : String)
  | dblAlt (q : ℚ)
deriving DecidableEq, Repr

/-- The active-alternative index of a SimpleVariant, as
std::variant::index reports it: int is 0, string is 1, double is 2. -/
def SimpleVariant.index : SimpleVariant → Nat
  | .intAlt _ => 0
  | .strAlt _ => 1
  | .dblAlt _ => 2

/-- GeometryVariant = std::variant of Point2D, Point3D, Color. -/
inductive GeometryVariant where
  | p2Alt (p : Point2D)
  | p3Alt (p : Point3D)
  | colorAlt (c : Color)
deriving DecidableEq, Repr

/-- MixedVariant = std::variant of int, Point2D, std::string, Vehicle. -/
inductive MixedVariant where
  | intAlt (n : Int)
  | p2Alt (p : Point2D)
  | strAlt (s : String)
  | vehicleAlt (v : Vehicle)
deriving DecidableEq, Repr

/-- ComplexVariant = std::variant of int32_t, float, std::string,
std::vector of int, Point2D, Point3D, std::complex of float. -/
inductive ComplexVariant where
  | i32Alt (n : Int)
  | f32Alt (q : ℚ)
  | strAlt (s : String)
  | vecIntAlt (xs : List Int)
  | p2Alt (p : Point2D)
  | p3Alt (p : Point3D)
  | complexAlt (re im : ℚ)
deriving DecidableEq, Repr

/-- VariantContainer: the struct holding one field of each variant type
plus an optional SimpleVariant. -/
structure VariantContainer where
  simple_var : SimpleVariant
  geometry_var : GeometryVariant
  mixed_var : MixedVariant
  complex_var : ComplexVariant
  optional_var : Option SimpleVariant
deriving DecidableEq, Repr

/-- The VariantContainer default constructor: simple_var = 42,
geometry_var = Point2D(1, 2), mixed_var = "test",
complex_var = Point2D(3, 4), optional_var = "optional_content". -/
def VariantContainer.init : VariantContainer :=
  { simple_var := .intAlt 42,
    geometry_var := .p2Alt { x := 1, y := 2 },
    mixed_var := .strAlt "test",
    complex_var := .p2Alt { x := 3, y := 4 },
    optional_var := some (.strAlt "optional_content") }

/-- The global test instance global_variant_container. -/
def global_variant_container : VariantContainer := VariantContainer.init

/-- VariantContainer::set_simple_to_int. -/
def VariantContainer.set_simple_to_int (c : VariantContainer) (val : Int) :
    VariantContainer :=
  { c with simple_var := .intAlt val }

/-- VariantContainer::set_simple_to_double. -/
def VariantContainer.set_simple_to_double (c : VariantContainer) (val : ℚ) :
    VariantContainer :=
  { c with simple_var := .dblAlt val }

/-- VariantContainer::set_simple_to_string. -/
def VariantContainer.set_simple_to_string (c : VariantContainer) (val : String) :
    VariantContainer :=
  { c with simple_var := .strAlt val }

/-- VariantContainer::get_simple_index — simple_var.index() cast to
int. -/
def VariantContainer.get_simple_index (c : VariantContainer) : Int :=
  Int.ofNat c.simple_var.index

/-- VariantContainer::get_simple_variant — returns simple_var. -/
def VariantContainer.get_simple_variant (c : VariantContainer) : SimpleVariant :=
  c.simple_var

/-- C5: on the SimpleVariant field of a VariantContainer, setting the
active alternative to each of int, string and double in turn and reading
back the active index and the payload reproduces the stored value and
its alternative index (0 for int, 1 for string, 2 for double), for all
three alternatives and every starting container. -/
theorem C5_simple_variant_roundtrip :
    ∀ (c : VariantContainer) (n : Int) (s : String) (q : ℚ),
    ((c.set_simple_to_int n).get_simple_index = 0 ∧
      (c.set_simple_to_int n).get_simple_variant = .intAlt n) ∧
    ((c.set_simple_to_string s).get_simple_index = 1 ∧
      (c.set_simple_to_string s).get_simple_variant = .strAlt s) ∧
    ((c.set_simple_to_double q).get_simple_index = 2 ∧
      (c.set_simple_to_double q).get_simple_variant = .dblAlt q) := by
  intro c n s q
  exact ⟨⟨rfl, rfl⟩, ⟨rfl, rfl⟩, ⟨rfl, rfl⟩⟩

end GlazeInterop
